import Mathlib

/-!
# Verification of the pmt trading engine core

Shallow embedding of the pmengine crate (order book, position/P&L tracking,
risk manager, order manager, engine signal pipeline) and proofs about it.

Conventions:
* `rust_decimal::Decimal` is modelled as `ℚ` (exact decimal arithmetic; the
  96-bit mantissa bound and division rounding to 28 digits are below the
  granularity of the properties considered here).
* `HashMap` keyed stores are modelled as association lists; iteration order
  only ever feeds commutative sums.
* `format!` reason strings keep their constant template text; interpolated
  numeric arguments are elided.
* `chrono` timestamps are modelled as `Int` (Unix milliseconds).
-/

set_option allowUnsafeReducibility true in
attribute [semireducible] Rat.add Rat.mul Rat.sub Rat.div Rat.neg Rat.normalize Rat.inv

abbrev Decimal := ℚ

/-- A single price level in the order book (`orderbook.rs::Level`). -/
structure Level where
  price : Decimal
  size : Decimal
deriving DecidableEq

/-- Signal urgency (`strategy.rs`, declared in lib.rs; shape fixed by its use
in risk.rs and engine.rs and by the spec: `Urgency ∈ {Low, Medium, High}`). -/
inductive Urgency where
  | low
  | medium
  | high
deriving DecidableEq

/-- Strategy signal (`strategy.rs::Signal`, declared in lib.rs; variants fixed
by risk.rs / engine.rs usage and the spec's tagged-variant definition). -/
inductive Signal where
  | hold
  | cancel (token_id : String)
  | buy (token_id : String) (price : Decimal) (size : Decimal) (urgency : Urgency)
  | sell (token_id : String) (price : Decimal) (size : Decimal) (urgency : Urgency)
  | shutdown (reason : String)
deriving DecidableEq

/-- A fill event (`position.rs::Fill`). -/
structure Fill where
  order_id : String
  token_id : String
  is_buy : Bool
  price : Decimal
  size : Decimal
  timestamp : Int
  fee : Decimal
deriving DecidableEq

/-- A single position in a token (`position.rs::Position`). -/
structure Position where
  token_id : String
  size : Decimal
  avg_entry_price : Decimal
  realized_pnl : Decimal
  unrealized_pnl : Decimal
  last_price : Option Decimal
deriving DecidableEq

namespace Position

/-- `Position::new`. -/
def new (token_id : String) : Position :=
  { token_id := token_id
    size := 0
    avg_entry_price := 0
    realized_pnl := 0
    unrealized_pnl := 0
    last_price := none }

/-- `Position::apply_fill`: average-cost, flip-through-zero accounting. -/
def apply_fill (p : Position) (fill : Fill) : Position :=
  let old_size := p.size
  let fill_value := fill.price * fill.size
  if fill.is_buy then
    if old_size ≥ 0 then
      -- Adding to long position - update average
      let old_value := p.avg_entry_price * old_size
      let new_size := old_size + fill.size
      let avg := if new_size > 0 then (old_value + fill_value) / new_size
                 else p.avg_entry_price
      { p with avg_entry_price := avg, size := new_size }
    else
      -- Covering short position
      let cover_size := min fill.size (-old_size)
      let new_long := fill.size - cover_size
      let realized := p.realized_pnl + cover_size * (p.avg_entry_price - fill.price)
      let new_size := old_size + fill.size
      let avg := if new_long > 0 ∧ new_size > 0 then fill.price else p.avg_entry_price
      { p with realized_pnl := realized, size := new_size, avg_entry_price := avg }
  else
    if old_size ≤ 0 then
      -- Adding to short position - update average
      let old_value := p.avg_entry_price * (-old_size)
      let new_size := old_size - fill.size
      let avg := if new_size < 0 then (old_value + fill_value) / (-new_size)
                 else p.avg_entry_price
      { p with avg_entry_price := avg, size := new_size }
    else
      -- Closing long position
      let close_size := min fill.size old_size
      let new_short := fill.size - close_size
      let realized := p.realized_pnl + close_size * (fill.price - p.avg_entry_price)
      let new_size := old_size - fill.size
      let avg := if new_short > 0 ∧ new_size < 0 then fill.price else p.avg_entry_price
      { p with realized_pnl := realized, size := new_size, avg_entry_price := avg }

/-- `Position::update_price`: mark-to-market of unrealized P&L. -/
def update_price (p : Position) (price : Decimal) : Position :=
  if p.size > 0 then
    { p with last_price := some price,
             unrealized_pnl := p.size * (price - p.avg_entry_price) }
  else if p.size < 0 then
    { p with last_price := some price,
             unrealized_pnl := (-p.size) * (p.avg_entry_price - price) }
  else
    { p with last_price := some price, unrealized_pnl := 0 }

/-- `Position::notional`. -/
def notional (p : Position) : Decimal :=
  |p.size| * (p.last_price.getD p.avg_entry_price)

end Position

/-- Tracks all positions (`position.rs::PositionTracker`); the `HashMap` is an
association list keyed by token id. -/
structure PositionTracker where
  positions : List (String × Position)
deriving DecidableEq

namespace PositionTracker

/-- `PositionTracker::new`. -/
def new : PositionTracker := ⟨[]⟩

/-- `PositionTracker::get`. -/
def get (pt : PositionTracker) (token_id : String) : Option Position :=
  (pt.positions.find? (fun kv => kv.1 == token_id)).map (·.2)

/-- `PositionTracker::apply_fill` via `get_or_create`. -/
def apply_fill (pt : PositionTracker) (fill : Fill) : PositionTracker :=
  if (pt.get fill.token_id).isSome then
    ⟨pt.positions.map fun kv =>
      if kv.1 == fill.token_id then (kv.1, kv.2.apply_fill fill) else kv⟩
  else
    ⟨pt.positions ++ [(fill.token_id, (Position.new fill.token_id).apply_fill fill)]⟩

/-- `PositionTracker::update_prices` restricted to a single-token price map
(the engine feeds one price per book update). -/
def update_price (pt : PositionTracker) (token_id : String) (price : Decimal) :
    PositionTracker :=
  ⟨pt.positions.map fun kv =>
    if kv.1 == token_id then (kv.1, kv.2.update_price price) else kv⟩

/-- `PositionTracker::total_realized_pnl`. -/
def total_realized_pnl (pt : PositionTracker) : Decimal :=
  (pt.positions.map (fun kv => kv.2.realized_pnl)).sum

/-- `PositionTracker::total_unrealized_pnl`. -/
def total_unrealized_pnl (pt : PositionTracker) : Decimal :=
  (pt.positions.map (fun kv => kv.2.unrealized_pnl)).sum

/-- `PositionTracker::total_notional`. -/
def total_notional (pt : PositionTracker) : Decimal :=
  (pt.positions.map (fun kv => kv.2.notional)).sum

end PositionTracker

/-- Tracked open order for exposure calculation (`risk.rs::TrackedOrder`). -/
structure TrackedOrder where
  token_id : String
  notional : Decimal
deriving DecidableEq

/-- Risk limits configuration (`risk.rs::RiskLimits`). -/
structure RiskLimits where
  max_position_size : Decimal
  max_total_exposure : Decimal
  max_loss : Decimal
  max_open_orders : Nat
  max_order_size : Decimal
deriving DecidableEq

/-- `RiskLimits::default`. -/
def RiskLimits.default : RiskLimits :=
  { max_position_size := 50
    max_total_exposure := 50
    max_loss := 25
    max_open_orders := 10
    max_order_size := 25 }

/-- Result of risk check on a signal (`risk.rs::RiskCheckResult`). -/
inductive RiskCheckResult where
  | approved (signal : Signal)
  | reduced (signal : Signal) (reason : String)
  | rejected (reason : String)
deriving DecidableEq

/-- Risk manager state (`risk.rs::RiskManager`). The `open_orders` map is an
association list (order id ↦ tracked order). The `reservations` ledger and its
generation counter are not in src risk.rs; they are modelled from the spec
(§4.4 reservation protocol, design note "keyed store with generation ids")
because engine.rs calls `reserve_exposure` / `confirm_reservation` /
`release_reservation` on the risk manager. The fields from src risk.rs never
read them. -/
structure RiskManager where
  limits : RiskLimits
  circuit_breaker_triggered : Bool
  open_orders : List (String × TrackedOrder)
  reservations : List (Nat × TrackedOrder)
  next_reservation_id : Nat
deriving DecidableEq

/-- Build `Signal::Buy` or `Signal::Sell` depending on the side flag, as the
sides of each `if is_buy { Signal::Buy{..} } else { Signal::Sell{..} }`
expression in `risk.rs::check_order`. -/
def mkOrderSignal (is_buy : Bool) (token_id : String) (price size : Decimal)
    (urgency : Urgency) : Signal :=
  if is_buy then .buy token_id price size urgency else .sell token_id price size urgency

namespace RiskManager

/-- `RiskManager::new`. -/
def new (limits : RiskLimits) : RiskManager :=
  { limits := limits
    circuit_breaker_triggered := false
    open_orders := []
    reservations := []
    next_reservation_id := 0 }

/-- `RiskManager::is_halted`. -/
def is_halted (rm : RiskManager) : Bool := rm.circuit_breaker_triggered

/-- `RiskManager::trigger_circuit_breaker`. -/
def trigger_circuit_breaker (rm : RiskManager) : RiskManager :=
  { rm with circuit_breaker_triggered := true }

/-- `RiskManager::reset_circuit_breaker`. -/
def reset_circuit_breaker (rm : RiskManager) : RiskManager :=
  { rm with circuit_breaker_triggered := false }

/-- `RiskManager::check_pnl`. -/
def check_pnl (rm : RiskManager) (positions : PositionTracker) : RiskManager :=
  let total_pnl := positions.total_realized_pnl + positions.total_unrealized_pnl
  if total_pnl < -rm.limits.max_loss then rm.trigger_circuit_breaker else rm

/-- `RiskManager::open_order_notional`. -/
def open_order_notional (rm : RiskManager) : Decimal :=
  (rm.open_orders.map (fun kv => kv.2.notional)).sum

/-- `RiskManager::total_open_orders`. -/
def total_open_orders (rm : RiskManager) : Nat := rm.open_orders.length

/-- `RiskManager::current_exposure` (positions + open orders). -/
def current_exposure (rm : RiskManager) (positions : PositionTracker) : Decimal :=
  positions.total_notional + rm.open_order_notional

/-- `RiskManager::remaining_capacity`. -/
def remaining_capacity (rm : RiskManager) (positions : PositionTracker) : Decimal :=
  max (rm.limits.max_total_exposure - rm.current_exposure positions) 0

/-- `RiskManager::check_order`. Reason strings keep the constant template text
of the `format!` calls; interpolated values are elided. -/
def check_order (rm : RiskManager) (token_id : String) (price size : Decimal)
    (is_buy : Bool) (urgency : Urgency) (positions : PositionTracker) :
    RiskCheckResult :=
  let notional := price * size
  -- Check order size limit
  if notional > rm.limits.max_order_size then
    let max_size := rm.limits.max_order_size / price
    .reduced (mkOrderSignal is_buy token_id price max_size urgency)
      "Order size reduced (max order size)"
  else
    -- Check position limit for this token (skipped when no record exists)
    let positionCheck : Option RiskCheckResult :=
      match positions.get token_id with
      | some pos =>
        let projected_size := if is_buy then pos.size + size else pos.size - size
        let projected_notional := |projected_size| * price
        if projected_notional > rm.limits.max_position_size then
          let allowed_change := rm.limits.max_position_size / price - |pos.size|
          if allowed_change ≤ 0 then
            some (.rejected ("Position limit reached for " ++ token_id))
          else
            some (.reduced (mkOrderSignal is_buy token_id price allowed_change urgency)
              "Order size reduced (position limit)")
        else none
      | none => none
    match positionCheck with
    | some r => r
    | none =>
      -- Check total exposure limit (positions + open orders + this new order)
      let position_notional := positions.total_notional
      let open_order_notional := rm.open_order_notional
      let current_exposure := position_notional + open_order_notional
      if current_exposure + notional > rm.limits.max_total_exposure then
        let allowed := rm.limits.max_total_exposure - current_exposure
        if allowed ≤ 0 then
          .rejected "Total exposure limit reached"
        else
          let allowed_size := allowed / price
          .reduced (mkOrderSignal is_buy token_id price allowed_size urgency)
            "Order size reduced (total exposure)"
      else
        -- All checks passed, return approved signal
        .approved (mkOrderSignal is_buy token_id price size urgency)

/-- `RiskManager::check_signal`. src risk.rs predates the `Shutdown` variant
(its match lists only `Hold | Cancel`, `Buy`, `Sell`); the engine never routes
`Shutdown` here, and it is grouped with the approve-as-is arm. -/
def check_signal (rm : RiskManager) (signal : Signal) (positions : PositionTracker) :
    RiskCheckResult :=
  -- Circuit breaker check
  if rm.circuit_breaker_triggered then
    .rejected "Circuit breaker active"
  else
    match signal with
    | .hold | .cancel _ | .shutdown _ => .approved signal
    | .buy token_id price size urgency =>
        rm.check_order token_id price size true urgency positions
    | .sell token_id price size urgency =>
        rm.check_order token_id price size false urgency positions

/-- `RiskManager::order_placed`. -/
def order_placed (rm : RiskManager) (order_id token_id : String) (notional : Decimal) :
    RiskManager :=
  { rm with open_orders :=
      (order_id, TrackedOrder.mk token_id notional) ::
        rm.open_orders.filter (fun kv => kv.1 ≠ order_id) }

/-- `RiskManager::order_closed`. -/
def order_closed (rm : RiskManager) (order_id : String) : RiskManager :=
  { rm with open_orders := rm.open_orders.filter (fun kv => kv.1 ≠ order_id) }

/-- Notional held by the pending-reservation ledger. -/
def reservation_notional (rm : RiskManager) : Decimal :=
  (rm.reservations.map (fun kv => kv.2.notional)).sum

/-- Modelled from the spec: `reserve(token_id, notional, positions) →
reservation_id?` — "recomputes exposure including this reservation; returns
none if it would overflow, else records pending reservation and returns a
fresh id" (spec §4.4). `RiskManager::reserve_exposure` is called from
engine.rs but is absent from src risk.rs. Exposure here is the spec's
`Σ positions.|s|·mark + Σ reservations.notional`, with confirmed reservations
living in `open_orders` (glossary: a reservation is "converted to a
tracked-order record on successful submission"). -/
def reserve_exposure (rm : RiskManager) (token_id : String) (notional : Decimal)
    (positions : PositionTracker) : Option (Nat × RiskManager) :=
  let exposure := positions.total_notional + rm.open_order_notional +
    rm.reservation_notional
  if exposure + notional > rm.limits.max_total_exposure then none
  else
    let rid := rm.next_reservation_id
    some (rid, { rm with
      reservations := (rid, TrackedOrder.mk token_id notional) :: rm.reservations
      next_reservation_id := rm.next_reservation_id + 1 })

/-- Modelled from the spec: `confirm(reservation_id, order_id)` — "links the
reservation to the live order; remains counted" (spec §4.4); absent from src
risk.rs. The pending entry becomes a tracked order keyed by the live order id,
which `order_closed` later removes. -/
def confirm_reservation (rm : RiskManager) (reservation_id : Nat) (order_id : String) :
    RiskManager :=
  match rm.reservations.find? (fun kv => kv.1 == reservation_id) with
  | some (_, tracked) =>
    { rm with
      reservations := rm.reservations.filter (fun kv => kv.1 ≠ reservation_id)
      open_orders := (order_id, tracked) ::
        rm.open_orders.filter (fun kv => kv.1 ≠ order_id) }
  | none => rm

/-- Modelled from the spec: `release(reservation_id)` — "removes it (order
submission failed or no order placed)" (spec §4.4); absent from src risk.rs. -/
def release_reservation (rm : RiskManager) (reservation_id : Nat) : RiskManager :=
  { rm with reservations := rm.reservations.filter (fun kv => kv.1 ≠ reservation_id) }

end RiskManager

/-- One iteration of the engine's per-signal pipeline
(`engine.rs::Engine::run`, signal loop): risk check, exposure reservation,
submission, then confirm (order placed) or release (no order / error). The
submission outcome of `OrderManager::execute` is abstracted as
`submit_result` (`some order_id` for `Ok(Some(id))`, `none` for `Ok(None)`
or `Err(_)`). Signals whose check result carries no Buy/Sell (the `_ =>
continue` arm) leave the risk state unchanged. -/
def engineProcessSignal (rm : RiskManager) (positions : PositionTracker)
    (signal : Signal) (submit_result : Option String) : RiskManager :=
  match rm.check_signal signal positions with
  | .approved s | .reduced s _ =>
    match s with
    | .buy token_id price size _ | .sell token_id price size _ =>
      let notional := price * size
      -- CRITICAL: Reserve exposure BEFORE placing order
      match rm.reserve_exposure token_id notional positions with
      | none => rm
      | some (reservation_id, rm1) =>
        match submit_result with
        | some order_id => rm1.confirm_reservation reservation_id order_id
        | none => rm1.release_reservation reservation_id
    | _ => rm
  | .rejected _ => rm

/-- A WebSocket book update (`BookUpdate` from the SDK, as consumed by
orderbook.rs; its `OrderBookLevel` carries the same price/size pair as
`Level`, and `Level::from` is the identity on those fields). -/
structure BookUpdate where
  asset_id : String
  bids : List Level
  asks : List Level
  timestamp : Int
  hash : Option String
deriving DecidableEq

/-- Full-depth order book for a single token (`orderbook.rs::OrderBook`). -/
structure OrderBook where
  token_id : String
  bids : List Level
  asks : List Level
  timestamp : Int
  hash : Option String
deriving DecidableEq

namespace OrderBook

/-- `OrderBook::new`. -/
def new (token_id : String) : OrderBook :=
  { token_id := token_id, bids := [], asks := [], timestamp := 0, hash := none }

/-- `OrderBook::update_from_ws`: replaces both ladders wholesale. -/
def update_from_ws (b : OrderBook) (update : BookUpdate) : OrderBook :=
  { b with
    bids := update.bids
    asks := update.asks
    timestamp := update.timestamp
    hash := update.hash }

/-- `OrderBook::best_bid`. -/
def best_bid (b : OrderBook) : Option Level := b.bids.head?

/-- `OrderBook::best_ask`. -/
def best_ask (b : OrderBook) : Option Level := b.asks.head?

/-- `OrderBook::bid_depth`. -/
def bid_depth (b : OrderBook) : Decimal := (b.bids.map Level.size).sum

/-- `OrderBook::ask_depth`. -/
def ask_depth (b : OrderBook) : Decimal := (b.asks.map Level.size).sum

/-- The VWAP ladder walk shared by `vwap_buy` / `vwap_sell`: consume levels
until `remaining ≤ 0` (the loop's break), returning the final `remaining`
and the accumulated cost `Σ fill·price`. -/
def vwapWalk : List Level → Decimal → Decimal × Decimal
  | [], remaining => (remaining, 0)
  | level :: rest, remaining =>
    if remaining ≤ 0 then (remaining, 0)
    else
      let fill := min remaining level.size
      let step := vwapWalk rest (remaining - fill)
      (step.1, fill * level.price + step.2)

/-- `OrderBook::vwap_buy`: walk the asks; `None` when liquidity is
insufficient, else total cost over size. -/
def vwap_buy (b : OrderBook) (size : Decimal) : Option Decimal :=
  let walk := vwapWalk b.asks size
  if walk.1 > 0 then none else some (walk.2 / size)

/-- `OrderBook::vwap_sell`: walk the bids. -/
def vwap_sell (b : OrderBook) (size : Decimal) : Option Decimal :=
  let walk := vwapWalk b.bids size
  if walk.1 > 0 then none else some (walk.2 / size)

/-- The spec's order-book invariants (§3 data model): bids strictly
descending in price, asks strictly ascending, best bid below best ask when
both present, every size positive. -/
def wellFormed (b : OrderBook) : Prop :=
  b.bids.Pairwise (fun x y => x.price > y.price) ∧
  b.asks.Pairwise (fun x y => x.price < y.price) ∧
  (∀ bb ∈ b.bids.head?, ∀ ba ∈ b.asks.head?, bb.price < ba.price) ∧
  (∀ l ∈ b.bids, 0 < l.size) ∧ (∀ l ∈ b.asks, 0 < l.size)

instance (b : OrderBook) : Decidable b.wellFormed := by
  unfold wellFormed; infer_instance

end OrderBook

/-- The market data hub's book map (`orderbook.rs::MarketDataHub.books`),
as an association list token id ↦ book; the broadcast channel side effect is
not modelled. -/
abbrev HubBooks := List (String × OrderBook)

/-- `MarketDataHub::get_book`. -/
def HubBooks.get_book (hub : HubBooks) (token_id : String) : Option OrderBook :=
  (hub.find? (fun kv => kv.1 == token_id)).map (·.2)

/-- `MarketDataHub::process_book_update`: update-or-create the token's book
from the snapshot (the `entry(..).or_insert_with(..)` followed by
`update_from_ws` on a clone that replaces the map entry). -/
def HubBooks.process_book_update (hub : HubBooks) (update : BookUpdate) : HubBooks :=
  if (HubBooks.get_book hub update.asset_id).isSome then
    hub.map (fun kv =>
      if kv.1 == update.asset_id then (kv.1, kv.2.update_from_ws update) else kv)
  else
    hub ++ [(update.asset_id, (OrderBook.new update.asset_id).update_from_ws update)]

/-- Order state (`order.rs::OrderStatus`). -/
inductive OrderStatus where
  | pending
  | open
  | partiallyFilled
  | filled
  | cancelled
  | rejected
deriving DecidableEq

/-- Tracked order (`order.rs::Order`). -/
structure Order where
  id : String
  token_id : String
  is_buy : Bool
  price : Decimal
  size : Decimal
  filled_size : Decimal
  status : OrderStatus
  created_at : Int
deriving DecidableEq

/-- `Order::is_active`. -/
def Order.is_active (o : Order) : Bool :=
  o.status == .pending || o.status == .open || o.status == .partiallyFilled

/-- The execution client's dry-run flag (`client.rs::PolymarketClient`); the
live SDK path is abstracted (§6 `OrderSubmitter` port). -/
structure PolymarketClient where
  dry_run : Bool

/-- `PolymarketClient::place_limit_order`: in dry-run mode submission is
short-circuited and a synthetic id `dry_run_<now_ms>` is returned; the live
path's exchange-assigned id is abstracted as `live_id`. -/
def PolymarketClient.place_limit_order (c : PolymarketClient) (now_ms : Int)
    (live_id : String) : String :=
  if c.dry_run then "dry_run_" ++ toString now_ms else live_id

/-- `order.rs::OrderError`. -/
inductive OrderError where
  | sdkError (msg : String)
  | channelClosed
  | invalidOrder (msg : String)
deriving DecidableEq

/-- Order manager state (`order.rs::OrderManager`): the tracked order map as
an association list. The fills mpsc channel is modelled as the returned
`Option Fill` (the would-be-sent event); the channel is taken to be open. -/
structure OrderManagerState where
  orders : List (String × Order)
deriving DecidableEq

namespace OrderManagerState

/-- `OrderManager::place_order`: submit via the client (dry-run handled
inside), then track the order locally and return its id. -/
def place_order (om : OrderManagerState) (client : PolymarketClient)
    (now_ms : Int) (live_id : String) (token_id : String) (is_buy : Bool)
    (price size : Decimal) : Option String × OrderManagerState :=
  let order_id := client.place_limit_order now_ms live_id
  let order : Order :=
    { id := order_id
      token_id := token_id
      is_buy := is_buy
      price := price
      size := size
      filled_size := 0
      status := .open
      created_at := now_ms }
  (some order_id,
    ⟨(order_id, order) :: om.orders.filter (fun kv => kv.1 ≠ order_id)⟩)

/-- `OrderManager::cancel_order` (the SDK call is a no-op in this model). -/
def cancel_order (om : OrderManagerState) (order_id : String) : OrderManagerState :=
  ⟨om.orders.map fun kv =>
    if kv.1 == order_id ∧ kv.2.is_active then
      (kv.1, { kv.2 with status := OrderStatus.cancelled })
    else kv⟩

/-- `OrderManager::cancel_all`: cancel every active order for a token. -/
def cancel_all (om : OrderManagerState) (token_id : String) : OrderManagerState :=
  ⟨om.orders.map fun kv =>
    if kv.2.token_id == token_id ∧ kv.2.is_active then
      (kv.1, { kv.2 with status := OrderStatus.cancelled })
    else kv⟩

/-- `OrderManager::execute`: translate a signal into order operations,
returning the possibly-placed order id. -/
def execute (om : OrderManagerState) (client : PolymarketClient) (now_ms : Int)
    (live_id : String) (signal : Signal) : Option String × OrderManagerState :=
  match signal with
  | .hold => (none, om)
  | .cancel token_id => (none, om.cancel_all token_id)
  | .buy token_id price size _ =>
      om.place_order client now_ms live_id token_id true price size
  | .sell token_id price size _ =>
      om.place_order client now_ms live_id token_id false price size
  | .shutdown _ => (none, om)

/-- `OrderManager::process_fill`: a tracked order gains the fill and a `Fill`
event goes out on the channel; an unknown order id is a silent no-op. -/
def process_fill (om : OrderManagerState) (order_id : String)
    (price size : Decimal) (now_ms : Int) :
    Except OrderError (OrderManagerState × Option Fill) :=
  match (om.orders.find? (fun kv => kv.1 == order_id)).map (·.2) with
  | some order =>
    let filled_size := order.filled_size + size
    let status := if filled_size ≥ order.size then OrderStatus.filled
                  else OrderStatus.partiallyFilled
    let updated := { order with filled_size := filled_size, status := status }
    let fill : Fill :=
      { order_id := order_id
        token_id := order.token_id
        is_buy := order.is_buy
        price := price
        size := size
        timestamp := now_ms
        fee := 0 }
    .ok (⟨om.orders.map fun kv =>
            if kv.1 == order_id then (kv.1, updated) else kv⟩, some fill)
  | none => .ok (om, none)

end OrderManagerState

/-- Engine-reachable risk/position states (`engine.rs::Engine::run`): from a
fresh engine, any interleaving of per-tick P&L checks, fills, mark-to-market
price updates, order close-outs, signal processing, and operational circuit
breaker resets. -/
inductive EngineReach (limits : RiskLimits) : RiskManager × PositionTracker → Prop
  | init : EngineReach limits (RiskManager.new limits, PositionTracker.new)
  | tick_check_pnl (rm : RiskManager) (pt : PositionTracker) :
      EngineReach limits (rm, pt) → EngineReach limits (rm.check_pnl pt, pt)
  | on_fill (rm : RiskManager) (pt : PositionTracker) (f : Fill) :
      EngineReach limits (rm, pt) → EngineReach limits (rm, pt.apply_fill f)
  | mark (rm : RiskManager) (pt : PositionTracker) (tok : String) (m : Decimal) :
      EngineReach limits (rm, pt) → EngineReach limits (rm, pt.update_price tok m)
  | close (rm : RiskManager) (pt : PositionTracker) (oid : String) :
      EngineReach limits (rm, pt) → EngineReach limits (rm.order_closed oid, pt)
  | signal (rm : RiskManager) (pt : PositionTracker) (sig : Signal) (submit : Option String) :
      EngineReach limits (rm, pt) →
      EngineReach limits (engineProcessSignal rm pt sig submit, pt)
  | reset (rm : RiskManager) (pt : PositionTracker) :
      EngineReach limits (rm, pt) → EngineReach limits (rm.reset_circuit_breaker, pt)

/-- A long position of 40 at entry price 1 (for the C4 witness). -/
def c4pos : Position :=
  { token_id := "t", size := 40, avg_entry_price := 1, realized_pnl := 0,
    unrealized_pnl := 0, last_price := none }

/-- Tracker holding just `c4pos` (for the C4 witness). -/
def c4pt : PositionTracker := ⟨[("t", c4pos)]⟩

/-- Limits with `max_loss = 2` for the C3 counterexample. -/
def c3limits : RiskLimits :=
  { max_position_size := 50, max_total_exposure := 50, max_loss := 2,
    max_open_orders := 10, max_order_size := 25 }

/-- Buy 10 at 0.50 (first step of the C3 counterexample trace). -/
def c3fill : Fill :=
  { order_id := "f1", token_id := "t", is_buy := true, price := 1/2, size := 10,
    timestamp := 0, fee := 0 }

/-- Tracker after the fill and a mark at 0.10 (unrealized −4). -/
def c3pt2 : PositionTracker :=
  ((PositionTracker.new.apply_fill c3fill).update_price "t" (1/10))

/-- Risk manager after `check_pnl` sees −4 < −2: the breaker trips. -/
def c3rm : RiskManager := (RiskManager.new c3limits).check_pnl c3pt2

/-- Tracker after the price recovers to 0.50 (unrealized back to 0). -/
def c3pt3 : PositionTracker := c3pt2.update_price "t" (1/2)

/-- Limits for the spec's exposure-race scenario: `max_total_exposure = 50`,
other limits wide enough not to interfere. -/
def c2limits : RiskLimits :=
  { max_position_size := 1000, max_total_exposure := 50, max_loss := 25,
    max_open_orders := 10, max_order_size := 1000 }

/-- First Buy of the exposure race: notional 30 at price 1. -/
def c2sig1 : Signal := .buy "t1" 1 30 .medium

/-- Second Buy of the exposure race: notional 30 on another token. -/
def c2sig2 : Signal := .buy "t2" 1 30 .medium

/-- Risk state after the engine processes the first Buy: checked, reserved,
submitted as order "o1", and the reservation confirmed. -/
def c2rm1 : RiskManager :=
  engineProcessSignal (RiskManager.new c2limits) PositionTracker.new c2sig1 (some "o1")

/-- The order book used by the repository's orderbook.rs tests. -/
def c7book : OrderBook :=
  { token_id := "test"
    bids := [⟨1/2, 100⟩, ⟨49/100, 200⟩, ⟨48/100, 300⟩]
    asks := [⟨51/100, 100⟩, ⟨52/100, 200⟩, ⟨53/100, 300⟩]
    timestamp := 0
    hash := none }

/-- A well-formed snapshot for the C9 witness. -/
def c9goodUpdate : BookUpdate :=
  { asset_id := "w9", bids := [⟨1/2, 10⟩], asks := [⟨3/5, 5⟩],
    timestamp := 1, hash := none }

/-- A snapshot violating the book invariants: best bid 0.60 ≥ best ask
0.50. -/
def c9badUpdate : BookUpdate :=
  { asset_id := "t", bids := [⟨3/5, 10⟩], asks := [⟨1/2, 5⟩],
    timestamp := 1, hash := none }

/-- A client in dry-run mode (for C8). -/
def c8client : PolymarketClient := ⟨true⟩

/-- The dry-run Buy of C8: token "t", price 0.5, size 10 (notional 5). -/
def c8signal : Signal := .buy "t" (1/2) 10 .medium

/-- The order the OrderManager registers for that dry-run Buy. -/
def c8order : Order :=
  { id := "dry_run_123", token_id := "t", is_buy := true, price := 1/2,
    size := 10, filled_size := 0, status := .open, created_at := 123 }

/-! ## Theorems -/

/-- C5 (amended): `update_price` establishes "size zero implies zero
unrealized P&L", but `apply_fill` leaves `unrealized_pnl` untouched, so the
invariant holds after a mark-to-market, not immediately after a fill. -/
theorem C5_unrealized_zero_after_mark (p : Position) (m : Decimal) (f : Fill) :
    (p.size = 0 → (p.update_price m).unrealized_pnl = 0) ∧
    (p.apply_fill f).unrealized_pnl = p.unrealized_pnl := by
  constructor
  · intro h
    unfold Position.update_price
    rw [h]
    norm_num
  · simp only [Position.apply_fill]
    split_ifs <;> rfl

/-- Witness for C5: a concrete position evaluated through both conjuncts. -/
theorem C5_unrealized_zero_after_mark_witness :
    ((Position.new "w5").size = 0 →
      ((Position.new "w5").update_price (1/2)).unrealized_pnl = 0) ∧
    ((Position.new "w5").apply_fill
      { order_id := "w", token_id := "w5", is_buy := true, price := 1/2,
        size := 10, timestamp := 0, fee := 0 }).unrealized_pnl =
      (Position.new "w5").unrealized_pnl :=
  C5_unrealized_zero_after_mark (Position.new "w5") (1/2)
    { order_id := "w", token_id := "w5", is_buy := true, price := 1/2,
      size := 10, timestamp := 0, fee := 0 }

/-- C5 counterexample: buy 10 at 0.50, mark at 0.60 (unrealized 1), then a
sell of 10 at 0.60 brings the size exactly to zero while the stale
unrealized P&L of 1 persists. -/
theorem C5_counterexample :
    ((((Position.new "t").apply_fill
        { order_id := "1", token_id := "t", is_buy := true, price := 1/2,
          size := 10, timestamp := 0, fee := 0 }).update_price (3/5)).apply_fill
        { order_id := "2", token_id := "t", is_buy := false, price := 3/5,
          size := 10, timestamp := 0, fee := 0 }).size = 0 ∧
    ((((Position.new "t").apply_fill
        { order_id := "1", token_id := "t", is_buy := true, price := 1/2,
          size := 10, timestamp := 0, fee := 0 }).update_price (3/5)).apply_fill
        { order_id := "2", token_id := "t", is_buy := false, price := 3/5,
          size := 10, timestamp := 0, fee := 0 }).unrealized_pnl ≠ 0 := by
  decide

/-- C6: the flat round-trip. On a flat position (size 0, no realized P&L), a
buy of Δ > 0 at π gives size Δ, average entry π and realized 0; selling Δ at
π' then gives size 0 and realized Δ·(π' − π). -/
theorem C6_flat_round_trip (p : Position) (f g : Fill) (Δ π π' : Decimal)
    (hflat : p.size = 0) (hreal : p.realized_pnl = 0) (hΔ : 0 < Δ)
    (hfb : f.is_buy = true) (hfp : f.price = π) (hfs : f.size = Δ)
    (hgb : g.is_buy = false) (hgp : g.price = π') (hgs : g.size = Δ) :
    (p.apply_fill f).size = Δ ∧
    (p.apply_fill f).avg_entry_price = π ∧
    (p.apply_fill f).realized_pnl = 0 ∧
    ((p.apply_fill f).apply_fill g).size = 0 ∧
    ((p.apply_fill f).apply_fill g).realized_pnl = Δ * (π' - π) := by
  have hΔ0 : Δ ≠ 0 := ne_of_gt hΔ
  have h1 : ¬ (Δ ≤ 0) := not_le.mpr hΔ
  have hb : p.apply_fill f = { p with size := Δ, avg_entry_price := π } := by
    simp [Position.apply_fill, hfb, hfp, hfs, hflat, hΔ, zero_add,
      mul_div_cancel_right₀ π hΔ0]
  have hs : (p.apply_fill f).apply_fill g =
      { p with size := 0, avg_entry_price := π, realized_pnl := Δ * (π' - π) } := by
    rw [hb]
    simp [Position.apply_fill, hgb, hgp, hgs, hreal, h1]
  rw [hs, hb]
  exact ⟨rfl, rfl, hreal, rfl, rfl⟩

/-- Witness for C6 at Δ = 10, π = 1/2, π' = 3/5. -/
theorem C6_flat_round_trip_witness :
    ((Position.new "w6").apply_fill
      { order_id := "b", token_id := "w6", is_buy := true, price := 1/2,
        size := 10, timestamp := 0, fee := 0 }).size = 10 ∧
    ((Position.new "w6").apply_fill
      { order_id := "b", token_id := "w6", is_buy := true, price := 1/2,
        size := 10, timestamp := 0, fee := 0 }).avg_entry_price = 1/2 ∧
    ((Position.new "w6").apply_fill
      { order_id := "b", token_id := "w6", is_buy := true, price := 1/2,
        size := 10, timestamp := 0, fee := 0 }).realized_pnl = 0 ∧
    (((Position.new "w6").apply_fill
      { order_id := "b", token_id := "w6", is_buy := true, price := 1/2,
        size := 10, timestamp := 0, fee := 0 }).apply_fill
      { order_id := "s", token_id := "w6", is_buy := false, price := 3/5,
        size := 10, timestamp := 0, fee := 0 }).size = 0 ∧
    (((Position.new "w6").apply_fill
      { order_id := "b", token_id := "w6", is_buy := true, price := 1/2,
        size := 10, timestamp := 0, fee := 0 }).apply_fill
      { order_id := "s", token_id := "w6", is_buy := false, price := 3/5,
        size := 10, timestamp := 0, fee := 0 }).realized_pnl = 10 * (3/5 - 1/2) :=
  C6_flat_round_trip (Position.new "w6")
    { order_id := "b", token_id := "w6", is_buy := true, price := 1/2,
      size := 10, timestamp := 0, fee := 0 }
    { order_id := "s", token_id := "w6", is_buy := false, price := 3/5,
      size := 10, timestamp := 0, fee := 0 }
    10 (1/2) (3/5) rfl rfl (by decide) rfl rfl rfl rfl rfl rfl

/-- C10: `process_fill` on an order id absent from the order map returns `Ok`,
emits no fill event, and leaves the order map unchanged. -/
theorem C10_process_fill_unknown_is_noop (om : OrderManagerState)
    (order_id : String) (price size : Decimal) (now_ms : Int)
    (h : om.orders.find? (fun kv => kv.1 == order_id) = none) :
    om.process_fill order_id price size now_ms = .ok (om, none) := by
  unfold OrderManagerState.process_fill
  rw [h]
  rfl

/-- Witness for C10: a map tracking only order "a" queried with "b". -/
theorem C10_process_fill_unknown_is_noop_witness :
    (OrderManagerState.mk
      [("a", { id := "a", token_id := "t", is_buy := true, price := 1/2,
               size := 10, filled_size := 0, status := .open,
               created_at := 0 })]).process_fill "b" (1/2) 1 7 =
      .ok (OrderManagerState.mk
        [("a", { id := "a", token_id := "t", is_buy := true, price := 1/2,
                 size := 10, filled_size := 0, status := .open,
                 created_at := 0 })], none) :=
  C10_process_fill_unknown_is_noop _ "b" (1/2) 1 7 (by decide)

/-- In `check_order`, an `Approved` result is only produced by the final
branch, after the exposure condition failed to trigger. -/
theorem check_order_approved_bound (rm : RiskManager) (pt : PositionTracker)
    (token_id : String) (price size : Decimal) (is_buy : Bool) (urg : Urgency)
    (s : Signal) (h : rm.check_order token_id price size is_buy urg pt = .approved s) :
    pt.total_notional + rm.open_order_notional + price * size ≤
      rm.limits.max_total_exposure := by
  unfold RiskManager.check_order at h
  by_cases h1 : price * size > rm.limits.max_order_size
  · simp [h1] at h
  · simp only [h1, if_false] at h
    rcases hget : pt.get token_id with _ | pos <;> simp only [hget] at h
    · by_cases h2 : pt.total_notional + rm.open_order_notional + price * size >
          rm.limits.max_total_exposure
      · simp [h2] at h
        split_ifs at h
      · linarith [not_lt.mp h2]
    · by_cases h3 : |if is_buy then pos.size + size else pos.size - size| * price >
          rm.limits.max_position_size
      · simp only [h3, if_true] at h
        split_ifs at h
      · simp only [h3, if_false] at h
        by_cases h2 : pt.total_notional + rm.open_order_notional + price * size >
            rm.limits.max_total_exposure
        · simp [h2] at h
          split_ifs at h
        · linarith [not_lt.mp h2]

/-- C1 (amended): whenever `check_signal` returns `Approved` for a Buy or a
Sell, the exposure (position notionals plus open-order notionals) after adding
the order's notional is within `max_total_exposure`. `Reduced` results from
the order-size and position-limit checks are produced before the exposure
check runs and carry no such guarantee (see the counterexample); the engine's
reservation step is what guards those. -/
theorem C1_approved_within_exposure_limit (rm : RiskManager)
    (pt : PositionTracker) (t : String) (p z : Decimal) (u : Urgency) (s : Signal) :
    (rm.check_signal (.buy t p z u) pt = .approved s →
      rm.current_exposure pt + p * z ≤ rm.limits.max_total_exposure) ∧
    (rm.check_signal (.sell t p z u) pt = .approved s →
      rm.current_exposure pt + p * z ≤ rm.limits.max_total_exposure) := by
  constructor <;> intro h <;>
    unfold RiskManager.check_signal at h <;>
    rw [RiskManager.current_exposure] <;>
    by_cases hcb : rm.circuit_breaker_triggered = true <;> simp only [hcb] at h
  · simp at h
  · exact check_order_approved_bound rm pt t p z true u s (by simpa using h)
  · simp at h
  · exact check_order_approved_bound rm pt t p z false u s (by simpa using h)

/-- Witness for C1: an approving check within limits (default limits, empty
book of positions and orders, Buy 10 at price 1). -/
theorem C1_approved_within_exposure_limit_witness :
    ((RiskManager.new RiskLimits.default).check_signal (.buy "t" 1 10 .medium)
        PositionTracker.new = .approved (.buy "t" 1 10 .medium) →
      (RiskManager.new RiskLimits.default).current_exposure PositionTracker.new +
        1 * 10 ≤ (RiskManager.new RiskLimits.default).limits.max_total_exposure) ∧
    ((RiskManager.new RiskLimits.default).check_signal (.sell "t" 1 10 .medium)
        PositionTracker.new = .approved (.buy "t" 1 10 .medium) →
      (RiskManager.new RiskLimits.default).current_exposure PositionTracker.new +
        1 * 10 ≤ (RiskManager.new RiskLimits.default).limits.max_total_exposure) :=
  C1_approved_within_exposure_limit (RiskManager.new RiskLimits.default)
    PositionTracker.new "t" 1 10 .medium (.buy "t" 1 10 .medium)

/-- C1 counterexample: with the default limits, 40 of exposure already held in
open orders and a Buy of notional 30, the order-size check reduces the signal
to notional 25 and returns without ever consulting the exposure limit:
40 + 25 = 65 > 50. The claim's "Approved **or Reduced** implies exposure
within the limit" is false on the code. -/
theorem C1_counterexample :
    (RiskManager.mk RiskLimits.default false [("o1", ⟨"t", 40⟩)] [] 0).check_signal
        (.buy "t" 1 30 .medium) PositionTracker.new =
      .reduced (.buy "t" 1 25 .medium) "Order size reduced (max order size)" ∧
    ¬ ((RiskManager.mk RiskLimits.default false [("o1", ⟨"t", 40⟩)] [] 0).current_exposure
          PositionTracker.new + 1 * 25 ≤ RiskLimits.default.max_total_exposure) := by
  decide

/-- C4 (amended): for a Buy/Sell that passes the circuit breaker and the
order-size check, **and whose token has an existing position record**, a
projected position breaching `max_position_size` yields `Reduced` with size
`max_position_size / price − |current|`, or `Rejected` when that allowable
delta is ≤ 0. Tokens with no prior position record skip this check entirely
(see the counterexample). -/
theorem C4_position_limit_needs_record (rm : RiskManager) (pt : PositionTracker)
    (t : String) (p z : Decimal) (u : Urgency) (pos : Position)
    (hcb : rm.circuit_breaker_triggered = false)
    (hsz : ¬ (p * z > rm.limits.max_order_size))
    (hget : pt.get t = some pos) :
    (|pos.size + z| * p > rm.limits.max_position_size →
      rm.check_signal (.buy t p z u) pt =
        (if rm.limits.max_position_size / p - |pos.size| ≤ 0 then
          .rejected ("Position limit reached for " ++ t)
        else
          .reduced (.buy t p (rm.limits.max_position_size / p - |pos.size|) u)
            "Order size reduced (position limit)")) ∧
    (|pos.size - z| * p > rm.limits.max_position_size →
      rm.check_signal (.sell t p z u) pt =
        (if rm.limits.max_position_size / p - |pos.size| ≤ 0 then
          .rejected ("Position limit reached for " ++ t)
        else
          .reduced (.sell t p (rm.limits.max_position_size / p - |pos.size|) u)
            "Order size reduced (position limit)")) := by
  constructor <;> intro hproj <;>
    simp only [RiskManager.check_signal, RiskManager.check_order, mkOrderSignal,
      hcb, hsz, hget, Bool.false_eq_true, if_false, if_true] <;>
    simp only [hproj, if_true] <;>
    split_ifs <;> rfl

/-- Witness for C4: default limits (`max_position_size = 50`), an existing
long position of 40 at price 1, and a Buy/Sell of 20: the buy side projects
60 > 50, the allowable delta is 10 > 0, so the signal is reduced to size
10. -/
theorem C4_position_limit_needs_record_witness :
    (|c4pos.size + 20| * 1 >
        (RiskManager.new RiskLimits.default).limits.max_position_size →
      (RiskManager.new RiskLimits.default).check_signal (.buy "t" 1 20 .medium) c4pt =
        (if (RiskManager.new RiskLimits.default).limits.max_position_size / 1 -
            |c4pos.size| ≤ 0 then
          .rejected ("Position limit reached for " ++ "t")
        else
          .reduced
            (.buy "t" 1
              ((RiskManager.new RiskLimits.default).limits.max_position_size / 1 -
                |c4pos.size|) .medium)
            "Order size reduced (position limit)")) ∧
    (|c4pos.size - 20| * 1 >
        (RiskManager.new RiskLimits.default).limits.max_position_size →
      (RiskManager.new RiskLimits.default).check_signal (.sell "t" 1 20 .medium) c4pt =
        (if (RiskManager.new RiskLimits.default).limits.max_position_size / 1 -
            |c4pos.size| ≤ 0 then
          .rejected ("Position limit reached for " ++ "t")
        else
          .reduced
            (.sell "t" 1
              ((RiskManager.new RiskLimits.default).limits.max_position_size / 1 -
                |c4pos.size|) .medium)
            "Order size reduced (position limit)")) :=
  C4_position_limit_needs_record (RiskManager.new RiskLimits.default) c4pt
    "t" 1 20 .medium c4pos (by decide) (by decide) (by decide)

/-- C4 counterexample: limits with `max_order_size = 100` and
`max_position_size = 50`, no position record for the token, Buy of 80 at
price 1: the projected notional 80 exceeds 50, yet the signal is `Approved`
at full size because the position check is skipped for unknown tokens. -/
theorem C4_counterexample :
    (RiskManager.new ⟨50, 1000, 25, 10, 100⟩).check_signal (.buy "t" 1 80 .medium)
        PositionTracker.new = .approved (.buy "t" 1 80 .medium) ∧
    |(0:ℚ) + 80| * 1 > (RiskManager.new ⟨50, 1000, 25, 10, 100⟩).limits.max_position_size ∧
    PositionTracker.new.get "t" = none := by
  decide

/-- C3 (amended): `check_pnl` trips `halted` exactly when realized plus
unrealized P&L is below `−max_loss` and never clears it; while tripped every
signal is rejected by `check_signal`; only `reset_circuit_breaker` clears the
latch. The state invariant "P&L ≥ −max_loss implies not halted" fails on
reachable states because the latch persists after P&L recovers (see the
counterexample). -/
theorem C3_circuit_breaker_latch (rm : RiskManager) (pt : PositionTracker)
    (sig : Signal) :
    ((rm.check_pnl pt).circuit_breaker_triggered =
      (if pt.total_realized_pnl + pt.total_unrealized_pnl < -rm.limits.max_loss
       then true else rm.circuit_breaker_triggered)) ∧
    (rm.circuit_breaker_triggered = true →
      rm.check_signal sig pt = .rejected "Circuit breaker active") ∧
    rm.reset_circuit_breaker.circuit_breaker_triggered = false := by
  refine ⟨?_, ?_, rfl⟩
  · simp only [RiskManager.check_pnl, RiskManager.trigger_circuit_breaker]
    split_ifs <;> rfl
  · intro h
    unfold RiskManager.check_signal
    rw [h]
    rfl

/-- Witness for C3: a halted manager with default limits and an empty
tracker. -/
theorem C3_circuit_breaker_latch_witness :
    (((RiskManager.mk RiskLimits.default true [] [] 0).check_pnl
        PositionTracker.new).circuit_breaker_triggered =
      (if PositionTracker.new.total_realized_pnl +
          PositionTracker.new.total_unrealized_pnl <
          -(RiskManager.mk RiskLimits.default true [] [] 0).limits.max_loss
       then true
       else (RiskManager.mk RiskLimits.default true [] [] 0).circuit_breaker_triggered)) ∧
    ((RiskManager.mk RiskLimits.default true [] [] 0).circuit_breaker_triggered = true →
      (RiskManager.mk RiskLimits.default true [] [] 0).check_signal .hold
          PositionTracker.new = .rejected "Circuit breaker active") ∧
    (RiskManager.mk RiskLimits.default true [] [] 0).reset_circuit_breaker.circuit_breaker_triggered
      = false :=
  C3_circuit_breaker_latch (RiskManager.mk RiskLimits.default true [] [] 0)
    PositionTracker.new .hold

/-- C3 counterexample: an engine-reachable state whose total P&L (0) is well
above `−max_loss` (−2) while `halted` is still true — the latch does not
clear when P&L recovers, refuting "P&L ≥ −max_loss implies halted = false"
over reachable states. -/
theorem C3_counterexample :
    EngineReach c3limits (c3rm, c3pt3) ∧
    c3pt3.total_realized_pnl + c3pt3.total_unrealized_pnl ≥ -c3limits.max_loss ∧
    c3rm.circuit_breaker_triggered = true := by
  refine ⟨?_, by decide, by decide⟩
  exact .mark _ _ "t" (1/2) (.tick_check_pnl _ _ (.mark _ _ "t" (1/10)
    (.on_fill _ _ c3fill .init)))

/-- C2: the reservation operation (modelled from the spec, §4.4) recomputes
exposure including the new reservation and refuses exactly when the total
would exceed `max_total_exposure`; otherwise it prepends a pending
reservation under a fresh id. In the spec's exposure-race scenario (two Buys
of notional 30 under a 50 limit), the first is approved, reserved and
confirmed at notional 30, and the second is then reduced to the remaining
headroom 20 and can be reserved before submission. -/
theorem C2_reserve_exposure_protocol (rm : RiskManager) (pt : PositionTracker)
    (t : String) (n : Decimal)
    (hids : ∀ e ∈ rm.reservations, e.1 < rm.next_reservation_id) :
    (rm.reserve_exposure t n pt = none ↔
      pt.total_notional + rm.open_order_notional + rm.reservation_notional + n >
        rm.limits.max_total_exposure) ∧
    (∀ rid rm', rm.reserve_exposure t n pt = some (rid, rm') →
      rm'.reservations = (rid, TrackedOrder.mk t n) :: rm.reservations ∧
      ∀ e ∈ rm.reservations, e.1 ≠ rid) ∧
    (RiskManager.new c2limits).check_signal c2sig1 PositionTracker.new =
      .approved c2sig1 ∧
    c2rm1.open_order_notional = 30 ∧
    c2rm1.check_signal c2sig2 PositionTracker.new =
      .reduced (.buy "t2" 1 20 .medium) "Order size reduced (total exposure)" ∧
    (c2rm1.reserve_exposure "t2" 20 PositionTracker.new).isSome = true := by
  refine ⟨?_, ?_, by decide, by decide, by decide, by decide⟩
  · simp only [RiskManager.reserve_exposure]
    split_ifs with h
    · simpa using h
    · simp only [reduceCtorEq, false_iff]
      simpa using h
  · intro rid rm' h
    simp only [RiskManager.reserve_exposure] at h
    split_ifs at h
    simp only [Option.some.injEq, Prod.mk.injEq] at h
    obtain ⟨hrid, hrm⟩ := h
    subst hrid hrm
    exact ⟨rfl, fun e he => ne_of_lt (hids e he)⟩

/-- Witness for C2: the reserve contract applied to the fresh manager with an
empty ledger, reserving notional 30. -/
theorem C2_reserve_exposure_protocol_witness :
    ((RiskManager.new c2limits).reserve_exposure "t1" 30 PositionTracker.new = none ↔
      PositionTracker.new.total_notional +
        (RiskManager.new c2limits).open_order_notional +
        (RiskManager.new c2limits).reservation_notional + 30 >
        (RiskManager.new c2limits).limits.max_total_exposure) ∧
    (∀ rid rm', (RiskManager.new c2limits).reserve_exposure "t1" 30
        PositionTracker.new = some (rid, rm') →
      rm'.reservations = (rid, TrackedOrder.mk "t1" 30) ::
        (RiskManager.new c2limits).reservations ∧
      ∀ e ∈ (RiskManager.new c2limits).reservations, e.1 ≠ rid) ∧
    (RiskManager.new c2limits).check_signal c2sig1 PositionTracker.new =
      .approved c2sig1 ∧
    c2rm1.open_order_notional = 30 ∧
    c2rm1.check_signal c2sig2 PositionTracker.new =
      .reduced (.buy "t2" 1 20 .medium) "Order size reduced (total exposure)" ∧
    (c2rm1.reserve_exposure "t2" 20 PositionTracker.new).isSome = true :=
  C2_reserve_exposure_protocol (RiskManager.new c2limits) PositionTracker.new
    "t1" 30 (by decide)

/-- The ladder walk's final `remaining` is exactly the unfilled part
`max 0 (r − depth)` when level sizes are non-negative. -/
theorem vwapWalk_remaining (ls : List Level) (r : Decimal)
    (hs : ∀ l ∈ ls, 0 ≤ l.size) (hr : 0 ≤ r) :
    (OrderBook.vwapWalk ls r).1 = max 0 (r - (ls.map Level.size).sum) := by
  induction ls generalizing r with
  | nil =>
    simp only [OrderBook.vwapWalk, List.map_nil, List.sum_nil, sub_zero]
    exact (max_eq_right hr).symm
  | cons l rest ih =>
    have hsum : 0 ≤ (rest.map Level.size).sum :=
      List.sum_nonneg (by simpa using fun x hx => hs x (List.mem_cons_of_mem l hx))
    have hl : 0 ≤ l.size := hs l (List.mem_cons_self l rest)
    simp only [OrderBook.vwapWalk, List.map_cons, List.sum_cons]
    split_ifs with h0
    · have hr0 : r = 0 := le_antisymm h0 hr
      subst hr0
      rw [eq_comm, max_eq_left (by linarith)]
    · push_neg at h0
      have hfill : 0 ≤ r - min r l.size := by
        have : min r l.size ≤ r := min_le_left _ _
        linarith
      rw [ih _ (fun x hx => hs x (List.mem_cons_of_mem l hx)) hfill]
      rcases le_total l.size r with hc | hc
      · rw [min_eq_right hc, sub_sub]
      · rw [min_eq_left hc, sub_self, max_eq_left (by linarith),
          max_eq_left (by linarith)]

/-- The accumulated walk cost is at least any uniform lower price bound times
the filled quantity. -/
theorem vwapWalk_cost_ge (ls : List Level) (r p0 : Decimal)
    (hs : ∀ l ∈ ls, 0 ≤ l.size) (hp : ∀ l ∈ ls, p0 ≤ l.price) (hr : 0 ≤ r) :
    p0 * (r - (OrderBook.vwapWalk ls r).1) ≤ (OrderBook.vwapWalk ls r).2 := by
  induction ls generalizing r with
  | nil => simp [OrderBook.vwapWalk]
  | cons l rest ih =>
    simp only [OrderBook.vwapWalk]
    split_ifs with h0
    · simp
    · push_neg at h0
      have hl : 0 ≤ l.size := hs l (List.mem_cons_self l rest)
      have hfill0 : 0 ≤ min r l.size := le_min hr hl
      have hfill : 0 ≤ r - min r l.size := by
        have : min r l.size ≤ r := min_le_left _ _
        linarith
      have hA := ih (r - min r l.size)
        (fun x hx => hs x (List.mem_cons_of_mem l hx))
        (fun x hx => hp x (List.mem_cons_of_mem l hx)) hfill
      have hB : p0 * min r l.size ≤ min r l.size * l.price := by
        calc p0 * min r l.size = min r l.size * p0 := by ring
        _ ≤ min r l.size * l.price :=
          mul_le_mul_of_nonneg_left (hp l (List.mem_cons_self l rest)) hfill0
      calc p0 * (r - (OrderBook.vwapWalk rest (r - min r l.size)).1)
          = p0 * ((r - min r l.size) -
              (OrderBook.vwapWalk rest (r - min r l.size)).1) +
            p0 * min r l.size := by ring
        _ ≤ (OrderBook.vwapWalk rest (r - min r l.size)).2 +
            min r l.size * l.price := add_le_add hA hB
        _ = min r l.size * l.price +
            (OrderBook.vwapWalk rest (r - min r l.size)).2 := by ring

/-- C7: for a book whose asks are sorted ascending with positive level sizes
and any requested size > 0, `vwap_buy` returns none exactly when the total
ask depth is below the requested size (never a partial walk), and any
returned value is at least the best ask price. -/
theorem C7_vwap_buy_law (b : OrderBook) (size : Decimal) (hsz : 0 < size)
    (hpos : ∀ l ∈ b.asks, 0 < l.size)
    (hsorted : b.asks.Pairwise (fun x y => x.price < y.price)) :
    (b.vwap_buy size = none ↔ b.ask_depth < size) ∧
    (∀ v l0, b.vwap_buy size = some v → b.asks.head? = some l0 → l0.price ≤ v) := by
  have hs : ∀ l ∈ b.asks, 0 ≤ l.size := fun l hl => (hpos l hl).le
  have hrem := vwapWalk_remaining b.asks size hs hsz.le
  constructor
  · simp only [OrderBook.vwap_buy]
    split_ifs with h
    · rw [hrem] at h
      simp only [lt_max_iff, lt_irrefl, false_or] at h
      constructor
      · intro
        rw [OrderBook.ask_depth]
        linarith
      · intro
        rfl
    · push_neg at h
      rw [hrem] at h
      simp only [reduceCtorEq, false_iff, not_lt, OrderBook.ask_depth]
      have := le_max_right (0:ℚ) (size - (b.asks.map Level.size).sum)
      by_contra hc
      push_neg at hc
      have : (0:ℚ) < size - (b.asks.map Level.size).sum := by linarith
      have := lt_of_lt_of_le this (le_max_right (0:ℚ) _)
      linarith [le_max_right (0:ℚ) (size - (b.asks.map Level.size).sum)]
  · intro v l0 hv hhead
    simp only [OrderBook.vwap_buy] at hv
    split_ifs at hv with h
    push_neg at h
    have hzero : (OrderBook.vwapWalk b.asks size).1 = 0 := by
      have := le_max_left (0:ℚ) (size - (b.asks.map Level.size).sum)
      rw [hrem]
      rw [hrem] at h
      exact le_antisymm h (le_max_left _ _)
    have hp : ∀ l ∈ b.asks, l0.price ≤ l.price := by
      intro l hl
      rcases hasks : b.asks with _ | ⟨a, tail⟩
      · rw [hasks] at hhead
        simp at hhead
      · rw [hasks] at hhead hl hsorted
        simp only [List.head?_cons, Option.some.injEq] at hhead
        subst hhead
        rcases List.mem_cons.mp hl with rfl | htail
        · exact le_refl _
        · exact (List.rel_of_pairwise_cons hsorted htail).le
    have hcost := vwapWalk_cost_ge b.asks size l0.price hs hp hsz.le
    rw [hzero, sub_zero] at hcost
    simp only [Option.some.injEq] at hv
    subst hv
    rw [le_div_iff₀ hsz]
    exact hcost

/-- Witness for C7: the test book queried for 50 units. -/
theorem C7_vwap_buy_law_witness :
    (c7book.vwap_buy 50 = none ↔ c7book.ask_depth < 50) ∧
    (∀ v l0, c7book.vwap_buy 50 = some v → c7book.asks.head? = some l0 →
      l0.price ≤ v) :=
  C7_vwap_buy_law c7book 50 (by decide) (by decide) (by decide)

/-- `find?` over a key-preserving in-place replacement is the replacement of
`find?`. -/
theorem find?_map_replace (l : List (String × OrderBook)) (t : String)
    (f : String × OrderBook → OrderBook) :
    (l.map (fun kv => if kv.1 == t then (kv.1, f kv) else kv)).find?
        (fun kv => kv.1 == t) =
      (l.find? (fun kv => kv.1 == t)).map (fun kv => (kv.1, f kv)) := by
  induction l with
  | nil => rfl
  | cons kv rest ih =>
    by_cases hk : kv.1 == t
    · simp [List.find?, hk]
    · simp only [List.map_cons, List.find?, hk, if_neg, Bool.false_eq_true,
        if_false]
      simpa [List.find?, hk] using ih

/-- Appending behind a fruitless search continues the search. -/
theorem find?_append_of_none (l : List (String × OrderBook))
    (x : String × OrderBook) (p : String × OrderBook → Bool)
    (h : l.find? p = none) :
    (l ++ [x]).find? p = if p x then some x else none := by
  induction l with
  | nil =>
    simp only [List.nil_append, List.find?]
    cases hp : p x <;> simp [hp]
  | cons kv rest ih =>
    by_cases hk : p kv
    · simp [List.find?, hk] at h
    · simp only [List.find?, hk] at h
      simpa [List.find?, hk] using ih h

/-- After `process_book_update`, the stored book for the update's token is
some pre-existing (or fresh) book overwritten by the update. -/
theorem hub_get_process (hub : HubBooks) (u : BookUpdate) :
    ∃ b0 : OrderBook,
      HubBooks.get_book (HubBooks.process_book_update hub u) u.asset_id =
        some (b0.update_from_ws u) := by
  unfold HubBooks.process_book_update
  split_ifs with h
  · unfold HubBooks.get_book at h ⊢
    rcases hf : hub.find? (fun kv => kv.1 == u.asset_id) with _ | kv0
    · rw [hf] at h
      simp at h
    · refine ⟨kv0.2, ?_⟩
      rw [find?_map_replace hub u.asset_id (fun kv => kv.2.update_from_ws u), hf]
      rfl
  · unfold HubBooks.get_book at h ⊢
    rcases hf : hub.find? (fun kv => kv.1 == u.asset_id) with _ | kv0
    · refine ⟨OrderBook.new u.asset_id, ?_⟩
      rw [find?_append_of_none hub _ _ hf]
      simp
    · rw [hf] at h
      simp at h

/-- C9 (amended): `process_book_update` performs no invariant validation: the
stored book for the update's token carries the update's ladders, timestamp
and hash verbatim, so it satisfies the book invariants exactly when the
incoming snapshot does. A violating snapshot is stored, not dropped (see the
counterexample). -/
theorem C9_snapshot_stored_verbatim (hub : HubBooks) (u : BookUpdate) :
    (HubBooks.get_book (HubBooks.process_book_update hub u) u.asset_id).map
        (fun b => (b.bids, b.asks, b.timestamp, b.hash)) =
      some (u.bids, u.asks, u.timestamp, u.hash) ∧
    (∀ b, HubBooks.get_book (HubBooks.process_book_update hub u) u.asset_id = some b →
      (b.wellFormed ↔ ((OrderBook.new u.asset_id).update_from_ws u).wellFormed)) := by
  obtain ⟨b0, hb0⟩ := hub_get_process hub u
  constructor
  · rw [hb0]
    rfl
  · intro b hb
    rw [hb0] at hb
    simp only [Option.some.injEq] at hb
    subst hb
    exact Iff.rfl

/-- Witness for C9: processing a snapshot into an empty hub. -/
theorem C9_snapshot_stored_verbatim_witness :
    (HubBooks.get_book (HubBooks.process_book_update [] c9goodUpdate)
        c9goodUpdate.asset_id).map
        (fun b => (b.bids, b.asks, b.timestamp, b.hash)) =
      some (c9goodUpdate.bids, c9goodUpdate.asks, c9goodUpdate.timestamp,
        c9goodUpdate.hash) ∧
    (∀ b, HubBooks.get_book (HubBooks.process_book_update [] c9goodUpdate)
        c9goodUpdate.asset_id = some b →
      (b.wellFormed ↔
        ((OrderBook.new c9goodUpdate.asset_id).update_from_ws
          c9goodUpdate).wellFormed)) :=
  C9_snapshot_stored_verbatim ([] : HubBooks) c9goodUpdate

/-- C9 counterexample: the crossed snapshot is not dropped — the hub stores
it verbatim, and the stored book violates `best_bid.price < best_ask.price`,
refuting "every OrderBook stored in the hub after process_snapshot" satisfies
the invariants. -/
theorem C9_counterexample :
    HubBooks.get_book (HubBooks.process_book_update [] c9badUpdate) "t" =
      some { token_id := "t", bids := [⟨3/5, 10⟩], asks := [⟨1/2, 5⟩],
             timestamp := 1, hash := none } ∧
    ¬ (OrderBook.mk "t" [⟨3/5, 10⟩] [⟨1/2, 5⟩] 1 none).wellFormed := by
  constructor
  · decide
  · intro hwf
    rcases hwf with ⟨-, -, hcross, -, -⟩
    have := hcross ⟨3/5, 10⟩ (by decide) ⟨1/2, 5⟩ (by decide)
    norm_num at this

/-- C8 (evaluation at the failing input): executing a Buy in dry-run mode
returns `Ok(Some(synthetic id))` and **registers** the order in the
OrderManager's map, so the engine's `Ok(Some(..))` arm confirms the exposure
reservation into `open_orders` instead of releasing it. This contradicts the
claim (and engine.rs's own `Ok(None) => // e.g. dry-run` comment) that
dry-run submissions are reported as "no order placed" and left untracked. -/
theorem C8_dry_run_divergence :
    (OrderManagerState.mk []).execute c8client 123 "live-unused" c8signal =
      (some "dry_run_123", OrderManagerState.mk [("dry_run_123", c8order)]) ∧
    (engineProcessSignal (RiskManager.new RiskLimits.default)
        PositionTracker.new c8signal (some "dry_run_123")).open_orders =
      [("dry_run_123", TrackedOrder.mk "t" 5)] ∧
    (engineProcessSignal (RiskManager.new RiskLimits.default)
        PositionTracker.new c8signal (some "dry_run_123")).reservations = [] := by
  refine ⟨?_, by decide, by decide⟩
  decide
